import Mathlib

/-!
Verification of the CPU ray tracer (`raytrace_cpu.py`, `scene.py`).

The Python code is embedded shallowly over `ℚ`.  The transcendental
functions it uses (`math.sqrt`, `math.exp`, `math.cos`/`math.sin` applied
to an angle given in degrees) are represented by an abstract `Numerics`
record of rational-valued functions; every definition is parametric in it,
so theorems proved for all `Numerics` in particular cover the real-valued
interpretation.  Concrete witnesses instantiate `Numerics` with a
computable integer-square-root based approximation that is exact on the
perfect squares appearing in the witness scenes.

Machine floats are modelled as exact rationals; the claims under scrutiny
concern control flow, exact constants and algebraic identities, none of
which depend on rounding.  Python's `ZeroDivisionError` (reachable in
`ray_sphere` for a zero direction) is modelled by an `Except`-valued
variant `ray_sphereE`; the `Option`-valued `ray_sphere` used inside
`trace` coincides with it whenever the divisor is nonzero
(`ray_sphereE_ok`).
-/

set_option maxRecDepth 20000
set_option maxHeartbeats 2000000

namespace RT

/-- Abstract interpretation of the transcendental functions used by the
Python code: `sqrt q`, `exp q`, and `cosd θ` / `sind θ` standing for
`cos(θ·π/180)` / `sin(θ·π/180)` (the code always converts degrees to
radians immediately before calling `math.cos` / `math.sin`). -/
structure Numerics where
  sqrt : ℚ → ℚ
  exp : ℚ → ℚ
  cosd : ℚ → ℚ
  sind : ℚ → ℚ

/-- A 3-component vector, as the Python 3-tuples of floats. -/
abbrev Vec3 := ℚ × ℚ × ℚ

/-- An RGB radiance triple. -/
abbrev RGB := ℚ × ℚ × ℚ

/-- `add` from the source: componentwise vector addition. -/
def add (a b : Vec3) : Vec3 := (a.1 + b.1, a.2.1 + b.2.1, a.2.2 + b.2.2)

/-- `sub` from the source: componentwise vector subtraction. -/
def sub (a b : Vec3) : Vec3 := (a.1 - b.1, a.2.1 - b.2.1, a.2.2 - b.2.2)

/-- `mul` from the source: scaling a vector by a scalar. -/
def mul (a : Vec3) (s : ℚ) : Vec3 := (a.1 * s, a.2.1 * s, a.2.2 * s)

/-- `dot` from the source. -/
def dot (a b : Vec3) : ℚ := a.1 * b.1 + a.2.1 * b.2.1 + a.2.2 * b.2.2

/-- `length` from the source: `math.sqrt(dot(v, v))`. -/
def length (N : Numerics) (v : Vec3) : ℚ := N.sqrt (dot v v)

/-- `norm` from the source: returns the zero vector when the length is
below `1e-8`, else scales by the reciprocal length. -/
def norm (N : Numerics) (v : Vec3) : Vec3 :=
  let l := length N v
  if l < 1/100000000 then (0, 0, 0) else mul v (1/l)

/-- `reflect` from the source: `rd - n * (2 * dot rd n)`. -/
def reflect (rd n : Vec3) : Vec3 := sub rd (mul n (2 * dot rd n))

/-- `clamp01` from the source. -/
def clamp01 (x : ℚ) : ℚ := max 0 (min 1 x)

/-- `ray_aabb` from the source (slab method).  Direction components of
magnitude at most `1e-8` get the sentinel inverse `1e8`. -/
def ray_aabb (ro rd bmin bmax : Vec3) : Option (ℚ × Vec3) :=
  let inv : ℚ → ℚ := fun c => if |c| > 1/100000000 then 1/c else 100000000
  let i : Vec3 := (inv rd.1, inv rd.2.1, inv rd.2.2)
  let t0 : Vec3 := ((bmin.1 - ro.1) * i.1, (bmin.2.1 - ro.2.1) * i.2.1, (bmin.2.2 - ro.2.2) * i.2.2)
  let t1 : Vec3 := ((bmax.1 - ro.1) * i.1, (bmax.2.1 - ro.2.1) * i.2.1, (bmax.2.2 - ro.2.2) * i.2.2)
  let tmin := max (min t0.1 t1.1) (max (min t0.2.1 t1.2.1) (min t0.2.2 t1.2.2))
  let tmax := min (max t0.1 t1.1) (min (max t0.2.1 t1.2.1) (max t0.2.2 t1.2.2))
  if tmax < 0 ∨ tmin > tmax then none
  else
    let t_hit := if tmin ≥ 1/10000 then tmin else tmax
    if t_hit < 1/10000 then none
    else
      let hit := add ro (mul rd t_hit)
      let eps : ℚ := 1/10000
      let n : Vec3 :=
        if |hit.1 - bmin.1| < eps then (-1, 0, 0)
        else if |hit.1 - bmax.1| < eps then (1, 0, 0)
        else if |hit.2.1 - bmin.2.1| < eps then (0, -1, 0)
        else if |hit.2.1 - bmax.2.1| < eps then (0, 1, 0)
        else if |hit.2.2 - bmin.2.2| < eps then (0, 0, -1)
        else (0, 0, 1)
      some (t_hit, n)

/-- `ray_sphere` from the source, with Python's fallible float division
made explicit: when the quadratic coefficient `2*a` is zero the Python
code raises `ZeroDivisionError`, modelled as `Except.error ()`. -/
def ray_sphereE (N : Numerics) (ro rd center : Vec3) (radius : ℚ) :
    Except Unit (Option (ℚ × Vec3)) :=
  let oc := sub ro center
  let a := dot rd rd
  let b := 2 * dot oc rd
  let c := dot oc oc - radius * radius
  let disc := b * b - 4 * a * c
  if disc < 0 then .ok none
  else if 2 * a = 0 then .error ()
  else
    let sdisc := N.sqrt disc
    let t0 := (-b - sdisc) / (2 * a)
    let t1 := (-b + sdisc) / (2 * a)
    if t0 > 1/10000 then .ok (some (t0, norm N (sub (add ro (mul rd t0)) center)))
    else if t1 > 1/10000 then .ok (some (t1, norm N (sub (add ro (mul rd t1)) center)))
    else .ok none

/-- `ray_sphere` as consumed by `trace`: total variant of `ray_sphereE`
(using Lean's total rational division, which agrees with Python's
whenever the divisor `2*a` is nonzero, see `ray_sphereE_ok`). -/
def ray_sphere (N : Numerics) (ro rd center : Vec3) (radius : ℚ) : Option (ℚ × Vec3) :=
  let oc := sub ro center
  let a := dot rd rd
  let b := 2 * dot oc rd
  let c := dot oc oc - radius * radius
  let disc := b * b - 4 * a * c
  if disc < 0 then none
  else
    let sdisc := N.sqrt disc
    let t0 := (-b - sdisc) / (2 * a)
    let t1 := (-b + sdisc) / (2 * a)
    if t0 > 1/10000 then some (t0, norm N (sub (add ro (mul rd t0)) center))
    else if t1 > 1/10000 then some (t1, norm N (sub (add ro (mul rd t1)) center))
    else none

/-- `ray_plane` from the source. -/
def ray_plane (ro rd pos normal : Vec3) : Option (ℚ × Vec3) :=
  let denom := dot rd normal
  if |denom| < 1/100000000 then none
  else
    let t := dot (sub pos ro) normal / denom
    if t < 1/10000 then none else some (t, normal)

/-- The two quadratic roots computed inside `ray_cylinder` (the code's
`t0` and `t1`), exposed so that theorems can speak about them. -/
def ray_cylinder_roots (N : Numerics) (ro rd center : Vec3) (radius : ℚ) : ℚ × ℚ :=
  let oc := sub ro center
  let a := rd.1 * rd.1 + rd.2.2 * rd.2.2
  let b := 2 * (oc.1 * rd.1 + oc.2.2 * rd.2.2)
  let c := oc.1 * oc.1 + oc.2.2 * oc.2.2 - radius * radius
  let disc := b * b - 4 * a * c
  let sdisc := N.sqrt disc
  ((-b - sdisc) / (2 * a), (-b + sdisc) / (2 * a))

/-- The body of the `for t in [t0, t1]` loop of `ray_cylinder`: skip a
root below the distance epsilon, bound the vertical offset from the base
to `[0, height]`, and build the horizontal-only normal. -/
def cyl_try (N : Numerics) (ro rd center : Vec3) (height t : ℚ) : Option (ℚ × Vec3) :=
  if t < 1/10000 then none
  else
    let hit := add ro (mul rd t)
    let y_rel := hit.2.1 - center.2.1
    if 0 ≤ y_rel ∧ y_rel ≤ height then
      some (t, norm N (hit.1 - center.1, 0, hit.2.2 - center.2.2))
    else none

/-- `ray_cylinder` from the source: vertical finite cylinder; the `for t
in [t0, t1]` loop becomes trying the near root then the far root. -/
def ray_cylinder (N : Numerics) (ro rd center : Vec3) (radius height : ℚ) :
    Option (ℚ × Vec3) :=
  let oc := sub ro center
  let a := rd.1 * rd.1 + rd.2.2 * rd.2.2
  if |a| < 1/100000000 then none
  else
    let b := 2 * (oc.1 * rd.1 + oc.2.2 * rd.2.2)
    let c := oc.1 * oc.1 + oc.2.2 * oc.2.2 - radius * radius
    let disc := b * b - 4 * a * c
    if disc < 0 then none
    else
      let ts := ray_cylinder_roots N ro rd center radius
      match cyl_try N ro rd center height ts.1 with
      | some r => some r
      | none => cyl_try N ro rd center height ts.2

/-- The `room` group of the scene configuration. -/
structure Room where
  size : Vec3
  center : Vec3
  floor_color : RGB
  ceiling_color : RGB
  wall_color : RGB
deriving DecidableEq

/-- The `light` group of the scene configuration. -/
structure Light where
  position : Vec3
  radius : ℚ
  intensity : RGB
deriving DecidableEq

/-- A mirror entry: position, (not yet normalized) normal, size (read but
unused by `intersect_mirror`), and reflectivity (the dict-lookup default
`0.95` is applied when the scene is built). -/
structure Mirror where
  position : Vec3
  normal : Vec3
  size : Vec3
  reflectivity : ℚ
deriving DecidableEq

/-- A candle entry (defaults `height=1.5`, `radius=0.2`,
`wax_color=[0.9,0.9,0.95]`, `flame_intensity=[8,6,4]` applied at
construction). -/
structure Candle where
  position : Vec3
  height : ℚ
  radius : ℚ
  wax_color : RGB
  flame_intensity : RGB
deriving DecidableEq

/-- A human-model entry (defaults `scale=1`, `rotation=0` applied at
construction); `rotation` is in degrees as in the source. -/
structure Human where
  position : Vec3
  scale : ℚ
  rotation : ℚ
  color : RGB
deriving DecidableEq

/-- The scene owned by `Scene.__init__`. -/
structure Scene where
  room : Room
  light : Light
  mirrors : List Mirror
  candles : List Candle
  human_models : List Human
deriving DecidableEq

/-- `self.room_min` computed in `Scene.__init__`. -/
def room_min (sc : Scene) : Vec3 :=
  (sc.room.center.1 - sc.room.size.1 / 2, sc.room.center.2.1 - sc.room.size.2.1 / 2,
    sc.room.center.2.2 - sc.room.size.2.2 / 2)

/-- `self.room_max` computed in `Scene.__init__`. -/
def room_max (sc : Scene) : Vec3 :=
  (sc.room.center.1 + sc.room.size.1 / 2, sc.room.center.2.1 + sc.room.size.2.1 / 2,
    sc.room.center.2.2 + sc.room.size.2.2 / 2)

/-- `Scene.get_room_face_color`. -/
def get_room_face_color (sc : Scene) (normal : Vec3) : RGB :=
  if normal.2.1 < -(9/10) then sc.room.floor_color
  else if normal.2.1 > 9/10 then sc.room.ceiling_color
  else sc.room.wall_color

/-- `Scene.intersect_mirror`: plane test against the mirror's position and
normalized normal (the `size` field is read but no bounds clipping is
performed — any plane hit is accepted). -/
def intersect_mirror (N : Numerics) (ro rd : Vec3) (m : Mirror) : Option (ℚ × Vec3) :=
  ray_plane ro rd m.position (norm N m.normal)

/-- Tag for the two candle parts (`"candle_body"` / `"candle_flame"`). -/
inductive CandlePart where
  | body
  | flame
deriving DecidableEq

/-- The `candle_center` local of `Scene.intersect_candle`:
`(pos[0], pos[1] + height * 0.5, pos[2])`. -/
def candle_center (c : Candle) : Vec3 :=
  (c.position.1, c.position.2.1 + c.height * (1/2), c.position.2.2)

/-- The `flame_center` local of `Scene.intersect_candle`:
`(pos[0], pos[1] + height + 0.15, pos[2])`. -/
def flame_center (c : Candle) : Vec3 :=
  (c.position.1, c.position.2.1 + c.height + 3/20, c.position.2.2)

/-- `Scene.intersect_candle`: body cylinder and flame sphere tested
independently; the hit list sorted by distance (Python's stable sort, so
on a tie the body — inserted first — wins) and its head returned. -/
def intersect_candle (N : Numerics) (ro rd : Vec3) (c : Candle) :
    Option (ℚ × Vec3 × CandlePart) :=
  let body := ray_cylinder N ro rd (candle_center c) c.radius c.height
  let flame := ray_sphere N ro rd (flame_center c) (3/25)
  match body, flame with
  | none, none => none
  | some (t, n), none => some (t, n, .body)
  | none, some (t, n) => some (t, n, .flame)
  | some (tb, nb), some (tf, nf) =>
    if tb ≤ tf then some (tb, nb, .body) else some (tf, nf, .flame)

/-- Body-part tag returned by `Scene.intersect_human`. -/
inductive HumanPart where
  | head
  | torso
  | arm
  | leg
  | hand
  | foot
deriving DecidableEq

/-- One primitive of the human model: a sphere (center, radius) or a
vertical cylinder (center, radius, height), with its part tag. -/
inductive HumanPrim where
  | sphere (center : Vec3) (radius : ℚ) (part : HumanPart)
  | cylinder (center : Vec3) (radius height : ℚ) (part : HumanPart)

/-- The `rotate_and_translate` closure of `Scene.intersect_human`:
rotate the offset about the Y axis by the model's yaw, then translate to
its base position. -/
def rotate_and_translate (cos_r sin_r : ℚ) (pos offset : Vec3) : Vec3 :=
  (pos.1 + (offset.1 * cos_r - offset.2.2 * sin_r), pos.2.1 + offset.2.1,
    pos.2.2 + (offset.1 * sin_r + offset.2.2 * cos_r))

/-- The 14 primitives tested by `Scene.intersect_human`, in source order
(head, torso, four arm spheres, four leg cylinders, two hands, two
feet). -/
def humanPrims (N : Numerics) (h : Human) : List HumanPrim :=
  let pos := h.position
  let s := h.scale
  let cos_r := N.cosd h.rotation
  let sin_r := N.sind h.rotation
  let rt : Vec3 → Vec3 := rotate_and_translate cos_r sin_r pos
  [ .sphere (pos.1, pos.2.1 + (11/10) * s, pos.2.2) ((3/20) * s) .head,
    .cylinder (pos.1, pos.2.1 + (2/5) * s, pos.2.2) ((1/4) * s) ((4/5) * s) .torso,
    .sphere (rt (-(7/20) * s, (1/2) * s, 0)) ((1/10) * s) .arm,
    .sphere (rt (-(1/2) * s, (1/5) * s, 0)) ((2/25) * s) .arm,
    .sphere (rt ((7/20) * s, (1/2) * s, 0)) ((1/10) * s) .arm,
    .sphere (rt ((1/2) * s, (1/5) * s, 0)) ((2/25) * s) .arm,
    .cylinder (rt (-(3/20) * s, -(1/5) * s, 0)) ((3/25) * s) ((2/5) * s) .leg,
    .cylinder (rt (-(3/20) * s, -(3/5) * s, 0)) ((1/10) * s) ((2/5) * s) .leg,
    .cylinder (rt ((3/20) * s, -(1/5) * s, 0)) ((3/25) * s) ((2/5) * s) .leg,
    .cylinder (rt ((3/20) * s, -(3/5) * s, 0)) ((1/10) * s) ((2/5) * s) .leg,
    .sphere (rt (-(13/20) * s, (1/20) * s, 0)) ((7/100) * s) .hand,
    .sphere (rt ((13/20) * s, (1/20) * s, 0)) ((7/100) * s) .hand,
    .sphere (rt (-(3/20) * s, -(9/10) * s, (1/10) * s)) ((2/25) * s) .foot,
    .sphere (rt ((3/20) * s, -(9/10) * s, (1/10) * s)) ((2/25) * s) .foot ]

/-- Intersect one human primitive. -/
def hitPrim (N : Numerics) (ro rd : Vec3) : HumanPrim → Option (ℚ × Vec3 × HumanPart)
  | .sphere c r p =>
    match ray_sphere N ro rd c r with
    | none => none
    | some (t, n) => some (t, n, p)
  | .cylinder c r h p =>
    match ray_cylinder N ro rd c r h with
    | none => none
    | some (t, n) => some (t, n, p)

/-- `Scene.intersect_human`: collect the hits of all 14 primitives in
source order, sort by distance (stable) and return the head — i.e. the
first hit with minimal distance. -/
def intersect_human (N : Numerics) (ro rd : Vec3) (h : Human) :
    Option (ℚ × Vec3 × HumanPart) :=
  (humanPrims N h).foldl
    (fun best prim =>
      match hitPrim N ro rd prim with
      | none => best
      | some (t, n, p) =>
        match best with
        | none => some (t, n, p)
        | some (tb, nb, pb) => if t < tb then some (t, n, p) else some (tb, nb, pb))
    none

/-- The `nearest_material` tag of `Scene.trace`. -/
inductive Material where
  | room
  | mirror
  | candle
  | human
deriving DecidableEq

/-- The nearest-candidate record accumulated by `Scene.trace`'s scan:
`nearest_t`, `nearest_n`, `nearest_material`, `nearest_color`,
`nearest_reflectivity`. -/
structure HitRec where
  t : ℚ
  n : Vec3
  material : Material
  color : RGB
  reflectivity : ℚ
deriving DecidableEq

/-- The replacement test of the scan:
`nearest_t is None or t < nearest_t`. -/
def closer (st : Option HitRec) (t : ℚ) : Bool :=
  match st with
  | none => true
  | some r => t < r.t

/-- The room-box baseline candidate of `Scene.trace` (lines computing
`t_room, n_room` and installing them as the first nearest candidate). -/
def roomCand (sc : Scene) (ro rd : Vec3) : Option HitRec :=
  match ray_aabb ro rd (room_min sc) (room_max sc) with
  | none => none
  | some (t, n) => some ⟨t, n, .room, get_room_face_color sc n, 0⟩

/-- The light-sphere test of `Scene.trace`: when the light is hit
strictly nearer than the current candidate the trace immediately returns
`intensity * 1.15` (`boost = 1.15`). -/
def lightCheck (N : Numerics) (sc : Scene) (ro rd : Vec3) (st : Option HitRec) :
    Option RGB :=
  match ray_sphere N ro rd sc.light.position sc.light.radius with
  | none => none
  | some (t, _) =>
    if closer st t then some (mul sc.light.intensity (23/20)) else none

/-- The mirror loop of `Scene.trace`: each mirror replaces the nearest
candidate when strictly closer, recording its reflectivity, black color
and the material tag `"mirror"`. -/
def scanMirrors (N : Numerics) (ro rd : Vec3) (ms : List Mirror) (st : Option HitRec) :
    Option HitRec :=
  ms.foldl
    (fun st m =>
      match intersect_mirror N ro rd m with
      | none => st
      | some (t, n) =>
        if closer st t then some ⟨t, n, .mirror, (0, 0, 0), m.reflectivity⟩ else st)
    st

/-- The candle loop of `Scene.trace`: a strictly-closer flame hit makes
the whole trace return the candle's flame intensity at once (`Sum.inl`);
a strictly-closer body hit installs a wax candidate and the loop goes
on. -/
def scanCandles (N : Numerics) (ro rd : Vec3) :
    List Candle → Option HitRec → Sum RGB (Option HitRec)
  | [], st => .inr st
  | c :: rest, st =>
    match intersect_candle N ro rd c with
    | none => scanCandles N ro rd rest st
    | some (t, n, part) =>
      if closer st t then
        match part with
        | .flame => .inl c.flame_intensity
        | .body => scanCandles N ro rd rest (some ⟨t, n, .candle, c.wax_color, 0⟩)
      else scanCandles N ro rd rest st

/-- The human loop of `Scene.trace`: each strictly-closer human hit
installs a diffuse candidate with the human's color. -/
def scanHumans (N : Numerics) (ro rd : Vec3) (hs : List Human) (st : Option HitRec) :
    Option HitRec :=
  hs.foldl
    (fun st h =>
      match intersect_human N ro rd h with
      | none => st
      | some (t, n, _) =>
        if closer st t then some ⟨t, n, .human, h.color, 0⟩ else st)
    st

/-- The complete nearest-hit scan of `Scene.trace` in source order:
room baseline, light short-circuit, mirrors, candles (flame
short-circuit), humans.  `Sum.inl` is an immediate return of the trace;
`Sum.inr` is the resolved nearest candidate (or `none` for the sky). -/
def scanResolve (N : Numerics) (sc : Scene) (ro rd : Vec3) : Sum RGB (Option HitRec) :=
  let st0 := roomCand sc ro rd
  match lightCheck N sc ro rd st0 with
  | some col => .inl col
  | none =>
    let st1 := scanMirrors N ro rd sc.mirrors st0
    match scanCandles N ro rd sc.candles st1 with
    | .inl col => .inl col
    | .inr st2 => .inr (scanHumans N ro rd sc.human_models st2)

/-- The sky gradient of `Scene.trace` (the `nearest_t is None` branch). -/
def sky (rd : Vec3) : RGB :=
  let t := (1/2) * (rd.2.1 + 1)
  ((1/10) * (1 - t) + (3/10) * t, (3/25) * (1 - t) + (2/5) * t,
    (3/20) * (1 - t) + (1/2) * t)

/-- The shadow-occlusion computation of `Scene.trace`'s diffuse branch:
light sphere (with the `radius + 1e-3` slack), then room box, then the
candle list, then the human list — mirrors are never consulted. -/
def shadowBlocked (N : Numerics) (sc : Scene) (shadow_ro ldir : Vec3)
    (dist_to_light : ℚ) : Bool :=
  let b1 : Bool :=
    match ray_sphere N shadow_ro ldir sc.light.position sc.light.radius with
    | none => false
    | some (t, _) => t < dist_to_light - sc.light.radius - 1/1000
  let b2 : Bool := b1 ||
    (match ray_aabb shadow_ro ldir (room_min sc) (room_max sc) with
     | none => false
     | some (t, _) => t < dist_to_light)
  let b3 : Bool := b2 ||
    sc.candles.any (fun c =>
      match intersect_candle N shadow_ro ldir c with
      | none => false
      | some (t, _, _) => t < dist_to_light)
  b3 ||
    sc.human_models.any (fun h =>
      match intersect_human N shadow_ro ldir h with
      | none => false
      | some (t, _, _) => t < dist_to_light)

/-- The diffuse (Lambertian) branch of `Scene.trace`: shadow ray, `N·L`,
inverse-square falloff floored at `0.1`, medium absorption
`exp(-dist*0.02)`, ambient `0.1`, all scaled by the current energy. -/
def diffuse (N : Numerics) (sc : Scene) (hit : Vec3) (rec : HitRec) (energy : ℚ) : RGB :=
  let to_light := sub sc.light.position hit
  let dist_to_light := length N to_light
  let ldir := norm N to_light
  let shadow_ro := add hit (mul rec.n (1/10000))
  let blocked := shadowBlocked N sc shadow_ro ldir dist_to_light
  let ndotl := clamp01 (dot rec.n ldir)
  let dist_factor := 1 / max (1/10) (dist_to_light * dist_to_light)
  let medium_attenuation := N.exp (-(dist_to_light * (1/50)))
  let ambient : ℚ := 1/10
  let direct := if blocked then 0 else ndotl * dist_factor * medium_attenuation
  (rec.color.1 * (ambient + direct * sc.light.intensity.1 * energy),
    rec.color.2.1 * (ambient + direct * sc.light.intensity.2.1 * energy),
    rec.color.2.2 * (ambient + direct * sc.light.intensity.2.2 * energy))

/-- `Scene.trace` by structural recursion on an explicit fuel.  The
wrapper `trace` below supplies `max_bounces - bounce` as the fuel; since
every recursive call increases `bounce` by exactly one and the guard
`bounce ≥ max_bounces` returns black, the fuel-0 black answer coincides
with the guard's and the two formulations agree (`trace_unfold`). -/
def traceF (N : Numerics) (sc : Scene) :
    ℕ → Vec3 → Vec3 → ℕ → ℕ → ℚ → RGB
  | 0, _, _, _, _, _ => (0, 0, 0)
  | fuel + 1, ro, rd, max_bounces, bounce, energy =>
    if bounce ≥ max_bounces ∨ energy < 1/200 then (0, 0, 0)
    else
      let energy :=
        if bounce ≥ 6 then energy * N.exp (-(((bounce : ℚ) - 6) * (1/4))) else energy
      match scanResolve N sc ro rd with
      | .inl col => col
      | .inr none => sky rd
      | .inr (some rec) =>
        let hit := add ro (mul rd rec.t)
        if rec.reflectivity > 1/100 then
          let reflected_rd := reflect rd rec.n
          let reflected_ro := add hit (mul rec.n (1/10000))
          mul (traceF N sc fuel reflected_ro reflected_rd max_bounces (bounce + 1)
                (energy * (23/25)))
            (rec.reflectivity * energy)
        else diffuse N sc hit rec energy

/-- `Scene.trace(ro, rd, max_bounces, bounce, energy)`. -/
def trace (N : Numerics) (sc : Scene) (ro rd : Vec3) (max_bounces bounce : ℕ)
    (energy : ℚ) : RGB :=
  traceF N sc (max_bounces - bounce) ro rd max_bounces bounce energy

/-- A JSON entry of a 3-component configuration list: a number, or any
other JSON value.  Only the distinction numeric / non-numeric matters to
the validation claims. -/
inductive JEntry where
  | num (q : ℚ)
  | other
deriving DecidableEq

/-- The `camera` group as far as `validate_scene` inspects it:
the optional `position` / `look_at` lists and whether `fov` is present. -/
structure CameraCfg where
  position : Option (List JEntry)
  look_at : Option (List JEntry)
  fov : Bool
deriving DecidableEq

/-- The `room` group as far as `validate_scene` inspects it. -/
structure RoomCfg where
  size : Option (List JEntry)
  center : Option (List JEntry)
deriving DecidableEq

/-- The `light` group as far as `validate_scene` inspects it. -/
structure LightCfg where
  position : Option (List JEntry)
  intensity : Option (List JEntry)
deriving DecidableEq

/-- A loaded scene configuration as far as `validate_scene` inspects it:
the four top-level groups, each possibly missing (`render`'s contents are
never looked at, only its presence). -/
structure SceneCfg where
  camera : Option CameraCfg
  room : Option RoomCfg
  light : Option LightCfg
  render : Bool
deriving DecidableEq

/-- The `"field" in group and len(group["field"]) == 3` pattern of
`validate_scene`. -/
def len3 : Option (List JEntry) → Bool
  | none => false
  | some l => l.length == 3

/-- `validate_scene` from `scene.py`: `true` iff all its `assert`
statements pass.  The asserts run in source order but the overall
pass/fail outcome is their conjunction: the four group-presence asserts,
then `position`/`look_at` length-3 and `fov` presence for the camera,
`size`/`center` length-3 for the room, `position`/`intensity` length-3
for the light.  No assert inspects the numeric type of the entries. -/
def validate_scene (s : SceneCfg) : Bool :=
  s.camera.isSome && s.room.isSome && s.light.isSome && s.render &&
  (match s.camera with
   | some cam => len3 cam.position && len3 cam.look_at && cam.fov
   | none => false) &&
  (match s.room with
   | some r => len3 r.size && len3 r.center
   | none => false) &&
  (match s.light with
   | some l => len3 l.position && len3 l.intensity
   | none => false)

/-- A 3-component field as claim C8 words it: present, with exactly three
entries, every entry numeric. -/
def threeNumeric : Option (List JEntry) → Bool
  | none => false
  | some l => l.length == 3 && l.all (fun e => match e with | .num _ => true | .other => false)

/-- The validation rule set exactly as claim C8 states it (spec-worded
definition, to be compared with `validate_scene`): the four groups are
present and each listed 3-component field has exactly three numeric
entries.  Note it does not mention `camera.fov`. -/
def claimRules (s : SceneCfg) : Bool :=
  (match s.camera with
   | some cam => threeNumeric cam.position && threeNumeric cam.look_at
   | none => false) &&
  (match s.room with
   | some r => threeNumeric r.size && threeNumeric r.center
   | none => false) &&
  (match s.light with
   | some l => threeNumeric l.position && threeNumeric l.intensity
   | none => false) &&
  s.render

/-- The rule set that `validate_scene` actually decides (the amended
claim C8): groups present; camera `position`/`look_at` present with
exactly three entries and `fov` present; room `size`/`center` and light
`position`/`intensity` present with exactly three entries; the numeric
type of entries is not checked. -/
def amendedRules (s : SceneCfg) : Prop :=
  (∃ cam, s.camera = some cam ∧
    (∃ l, cam.position = some l ∧ l.length = 3) ∧
    (∃ l, cam.look_at = some l ∧ l.length = 3) ∧ cam.fov = true) ∧
  (∃ r, s.room = some r ∧
    (∃ l, r.size = some l ∧ l.length = 3) ∧
    (∃ l, r.center = some l ∧ l.length = 3)) ∧
  (∃ li, s.light = some li ∧
    (∃ l, li.position = some l ∧ l.length = 3) ∧
    (∃ l, li.intensity = some l ∧ l.length = 3)) ∧
  s.render = true

/-- Fuel-driven Newton iteration for the integer square root (the fuel
far exceeds the iteration count needed for any number used below). -/
def nsqrtIter (n : ℕ) : ℕ → ℕ → ℕ
  | 0, x => x
  | fuel + 1, x =>
    let next := (x + n / x) / 2
    if next < x then nsqrtIter n fuel next else x

/-- Integer square root (exact on perfect squares), kernel-reducible. -/
def nsqrt (n : ℕ) : ℕ :=
  if n ≤ 1 then n else nsqrtIter n 100 n

/-- A computable square-root approximation on `ℚ`, exact whenever
numerator and denominator are perfect squares — which holds for every
concrete radicand relied on by the witnesses below. -/
def qsqrt (q : ℚ) : ℚ := (nsqrt q.num.toNat : ℚ) / (nsqrt q.den : ℚ)

/-- A concrete `Numerics` instantiation for witnesses and
counterexamples: `qsqrt` for the square root, the constant `39/50`
(≈ `exp(-0.25)` ≈ `0.7788`; any value other than `1`, as the real
exponential yields at every negative argument, exhibits the same
behavior) for the exponential, and yaw `cos`/`sin` as for a zero
rotation. -/
def Nc : Numerics := ⟨qsqrt, fun _ => 39/50, fun _ => 1, fun _ => 0⟩

/-- Witness scene: an empty room with the light placed on the camera
ray. -/
def scLight : Scene :=
  ⟨⟨(40, 40, 40), (0, 0, 0), (2/5, 2/5, 2/5), (9/10, 9/10, 9/10), (1/2, 1/2, 1/2)⟩,
    ⟨(5, 0, 0), 1, (5, 4, 3)⟩, [], [], []⟩

/-- Counterexample scene for the reflection claim: one tilted mirror on
the x-axis and a light placed on the mirror-reflected ray. -/
def scMirror : Scene :=
  ⟨⟨(20, 20, 20), (0, 0, 0), (2/5, 2/5, 2/5), (9/10, 9/10, 9/10), (1/2, 1/2, 1/2)⟩,
    ⟨(18/5, 24/5, 0), 1, (1, 1, 1)⟩,
    [⟨(5, 0, 0), (-(4/5), 3/5, 0), (1, 1, 1), 19/20⟩], [], []⟩

/-- Witness scene for the candle-flame short-circuit: two candles and one
human; a vertical ray straight down through the first candle's flame. -/
def scCandle : Scene :=
  ⟨⟨(40, 40, 40), (0, 0, 0), (2/5, 2/5, 2/5), (9/10, 9/10, 9/10), (1/2, 1/2, 1/2)⟩,
    ⟨(0, 15, 0), 1, (5, 5, 5)⟩, [],
    [⟨(0, -(33/20), 0), 3/2, 1/5, (9/10, 9/10, 19/20), (8, 6, 4)⟩,
      ⟨(5, -(33/20), 5), 3/2, 1/5, (9/10, 9/10, 19/20), (7, 5, 3)⟩],
    [⟨(8, -18, 0), 1, 0, (1, 0, 0)⟩]⟩

/-- Witness candle for the body-band theorem: unit height and radius at
the origin. -/
def cBand : Candle := ⟨(0, 0, 0), 1, 1, (1, 1, 1), (8, 6, 4)⟩

/-- Whether `ray_sphereE` reports Python's `ZeroDivisionError`. -/
def ray_sphereE_raises (N : Numerics) (ro rd center : Vec3) (radius : ℚ) : Bool :=
  match ray_sphereE N ro rd center radius with
  | .error _ => true
  | .ok _ => false

/-- Whenever the divisor `2 * dot rd rd` is nonzero (every nonzero ray
direction), the fallible `ray_sphereE` succeeds and agrees with the total
`ray_sphere` used inside `trace`. -/
theorem ray_sphereE_ok (N : Numerics) (ro rd center : Vec3) (radius : ℚ)
    (h : dot rd rd ≠ 0) :
    ray_sphereE N ro rd center radius = .ok (ray_sphere N ro rd center radius) := by
  have h2 : ¬(2 * dot rd rd = 0) := by simpa using h
  simp only [ray_sphereE, ray_sphere]
  split_ifs <;> first | rfl | exact absurd (by assumption) h2

/-- The recursion equation satisfied by `trace`: exactly the body of
`Scene.trace`, with the recursive call again a `trace`. -/
theorem trace_eq (N : Numerics) (sc : Scene) (ro rd : Vec3) (mb b : ℕ) (e : ℚ) :
    trace N sc ro rd mb b e =
      if b ≥ mb ∨ e < 1/200 then (0, 0, 0)
      else
        let e2 := if b ≥ 6 then e * N.exp (-(((b : ℚ) - 6) * (1/4))) else e
        match scanResolve N sc ro rd with
        | .inl col => col
        | .inr none => sky rd
        | .inr (some rec) =>
          let hit := add ro (mul rd rec.t)
          if rec.reflectivity > 1/100 then
            mul (trace N sc (add hit (mul rec.n (1/10000))) (reflect rd rec.n) mb
                  (b + 1) (e2 * (23/25)))
              (rec.reflectivity * e2)
          else diffuse N sc hit rec e2 := by
  by_cases hb : b ≥ mb
  · have h0 : mb - b = 0 := Nat.sub_eq_zero_of_le hb
    simp [trace, h0, traceF, hb]
  · obtain ⟨k, hk⟩ : ∃ k, mb - b = k + 1 := ⟨mb - b - 1, by omega⟩
    have hk2 : mb - (b + 1) = k := by omega
    simp only [trace, hk, hk2]
    rfl

/-- C4: `Scene.trace` terminates for every input — it is realized here by
the total function `trace`, whose recursion consumes the fuel
`max_bounces - bounce` because every recursive call increases `bounce` by
exactly 1 (see `traceF`/`trace_eq`), so the recursion depth never exceeds
`max_bounces`; and it returns black `(0,0,0)` immediately whenever
`bounce ≥ max_bounces` or `energy < 0.005` — in particular for
`max_bounces = 0` or entry energy below `0.005`. -/
theorem trace_terminates_black (N : Numerics) (sc : Scene) (ro rd : Vec3)
    (mb b : ℕ) (e : ℚ) (h : b ≥ mb ∨ e < 1/200) :
    trace N sc ro rd mb b e = (0, 0, 0) := by
  unfold trace
  rcases h with h | h
  · rw [Nat.sub_eq_zero_of_le h]
    rfl
  · cases mb - b with
    | zero => rfl
    | succ k =>
      simp only [traceF]
      rw [if_pos (Or.inr h)]

/-- Witness for C4: with `max_bounces = 0` the trace of a concrete scene
returns black. -/
theorem trace_terminates_black_w :
    trace Nc scLight (0, 0, 0) (1, 0, 0) 0 0 1 = (0, 0, 0) :=
  trace_terminates_black Nc scLight (0, 0, 0) (1, 0, 0) 0 0 1 (Or.inl (by with_unfolding_all decide))

/-- C2: when the light sphere is hit strictly nearer than the room-box
candidate (or the room box is missed) — the test `closer` — `Scene.trace`
immediately returns `intensity * 1.15` per channel, for every mirror,
candle and human list (none of them is consulted) and regardless of the
recursion state, provided the entry guards did not already return
black. -/
theorem trace_light_short_circuit (N : Numerics) (sc : Scene) (ro rd : Vec3)
    (mb b : ℕ) (e : ℚ) (t : ℚ) (nl : Vec3)
    (hguard : ¬(b ≥ mb ∨ e < 1/200))
    (hlight : ray_sphere N ro rd sc.light.position sc.light.radius = some (t, nl))
    (hcloser : closer (roomCand sc ro rd) t = true) :
    trace N sc ro rd mb b e = mul sc.light.intensity (23/20) := by
  have hsr : scanResolve N sc ro rd = .inl (mul sc.light.intensity (23/20)) := by
    unfold scanResolve lightCheck
    rw [hlight]
    simp [hcloser]
  rw [trace_eq, if_neg hguard]
  simp only [hsr]

/-- Witness for C2: an empty room with the light on the camera ray;
the result is exactly `intensity * 1.15 = (5,4,3) * 23/20`. -/
theorem trace_light_short_circuit_w :
    trace Nc scLight (0, 0, 0) (1, 0, 0) 4 0 1 = mul (5, 4, 3) (23/20) :=
  trace_light_short_circuit Nc scLight (0, 0, 0) (1, 0, 0) 4 0 1 4 (-1, 0, 0)
    (by with_unfolding_all decide) (by with_unfolding_all decide) (by with_unfolding_all decide)

/-- C9: the shadow-occlusion test of the diffuse branch consults only the
light sphere, the room box, the candles and the human figures — two
scenes differing only in their mirror lists produce the same `blocked`
flag for every shadow ray, so a mirror between the hit point and the
light never occludes the direct term. -/
theorem shadow_ignores_mirrors (N : Numerics) (room : Room) (light : Light)
    (ms ms' : List Mirror) (cs : List Candle) (hs : List Human)
    (shadow_ro ldir : Vec3) (dist_to_light : ℚ) :
    shadowBlocked N ⟨room, light, ms, cs, hs⟩ shadow_ro ldir dist_to_light =
      shadowBlocked N ⟨room, light, ms', cs, hs⟩ shadow_ro ldir dist_to_light := rfl

/-- C7: for a unit normal (`dot n n = 1`, the algebraic rendering of
`|n| = 1`), `reflect` flips the normal component of the incidence
direction (`reflect(d,n)·n = -(d·n)`) and preserves the length
(`|reflect(d,n)| = |d|`, for any interpretation of the square root since
the radicands agree). -/
theorem reflect_spec (N : Numerics) (d n : Vec3) (hn : dot n n = 1) :
    dot (reflect d n) n = -(dot d n) ∧ length N (reflect d n) = length N d := by
  obtain ⟨d1, d2, d3⟩ := d
  obtain ⟨n1, n2, n3⟩ := n
  simp only [dot] at hn
  constructor
  · simp only [dot, reflect, sub, mul]
    linear_combination (-2 * (d1 * n1 + d2 * n2 + d3 * n3)) * hn
  · have h2 : dot (reflect (d1, d2, d3) (n1, n2, n3)) (reflect (d1, d2, d3) (n1, n2, n3)) =
        dot (d1, d2, d3) (d1, d2, d3) := by
      simp only [dot, reflect, sub, mul]
      linear_combination (4 * (d1 * n1 + d2 * n2 + d3 * n3) ^ 2) * hn
    unfold length
    rw [h2]

/-- Witness for C7 at `d = (3,4,0)`, `n = (1,0,0)`. -/
theorem reflect_spec_w :
    dot (reflect (3, 4, 0) (1, 0, 0)) (1, 0, 0) = -(dot (3, 4, 0) (1, 0, 0)) ∧
    length Nc (reflect (3, 4, 0) (1, 0, 0)) = length Nc (3, 4, 0) :=
  reflect_spec Nc (3, 4, 0) (1, 0, 0) (by with_unfolding_all decide)

/-- C10: the candle body cylinder accepts hits only with a `y` coordinate
in `[pos.y + h/2, pos.y + 3h/2]` (the center handed to `ray_cylinder` is
raised by `h/2` and `ray_cylinder` accepts `hit.y - center.y ∈ [0, h]`);
consequently a ray both of whose shell roots hit below `pos.y + h/2`
reports no body hit (in particular one confined to the lower gap
`[pos.y, pos.y + h/2)`). -/
theorem candle_body_band (N : Numerics) (ro rd : Vec3) (c : Candle)
    (hh : 0 < c.height) :
    (∀ t n, ray_cylinder N ro rd (candle_center c) c.radius c.height = some (t, n) →
      c.position.2.1 + c.height / 2 ≤ (add ro (mul rd t)).2.1 ∧
      (add ro (mul rd t)).2.1 ≤ c.position.2.1 + 3 * c.height / 2) ∧
    (((add ro (mul rd (ray_cylinder_roots N ro rd (candle_center c) c.radius).1)).2.1 <
        c.position.2.1 + c.height / 2 ∧
      (add ro (mul rd (ray_cylinder_roots N ro rd (candle_center c) c.radius).2)).2.1 <
        c.position.2.1 + c.height / 2) →
      ray_cylinder N ro rd (candle_center c) c.radius c.height = none) := by
  have htry : ∀ t0 t n, cyl_try N ro rd (candle_center c) c.height t0 = some (t, n) →
      c.position.2.1 + c.height / 2 ≤ (add ro (mul rd t)).2.1 ∧
      (add ro (mul rd t)).2.1 ≤ c.position.2.1 + 3 * c.height / 2 := by
    intro t0 t n ht
    simp only [cyl_try] at ht
    split_ifs at ht with h1 h2
    · obtain ⟨ht0, -⟩ := Prod.mk.injEq .. ▸ Option.some.inj ht
      obtain ⟨hlo, hhi⟩ := h2
      subst ht0
      simp only [candle_center] at hlo hhi
      constructor <;> linarith
  have hmiss : ∀ t0, (add ro (mul rd t0)).2.1 < c.position.2.1 + c.height / 2 →
      cyl_try N ro rd (candle_center c) c.height t0 = none := by
    intro t0 hy
    simp only [cyl_try]
    split_ifs with h1 h2
    · rfl
    · exfalso
      obtain ⟨hlo, -⟩ := h2
      simp only [candle_center] at hlo
      linarith
    · rfl
  constructor
  · intro t n ht
    simp only [ray_cylinder] at ht
    split_ifs at ht with h1 h2
    cases hc1 : cyl_try N ro rd (candle_center c) c.height
        (ray_cylinder_roots N ro rd (candle_center c) c.radius).1 with
    | some r =>
      rw [hc1] at ht
      simp only at ht
      exact htry _ t n (hc1.trans ht)
    | none =>
      rw [hc1] at ht
      simp only at ht
      exact htry _ t n ht
  · rintro ⟨hg1, hg2⟩
    simp only [ray_cylinder]
    split_ifs with h1 h2
    · rfl
    · rfl
    · rw [hmiss _ hg1, hmiss _ hg2]

/-- Witness for C10: for the unit candle `cBand`, a horizontal ray at
`y = 1/4` (both shell roots in the lower gap) misses the body, while a
horizontal ray at `y = 1` hits it inside the band `[1/2, 3/2]`. -/
theorem candle_body_band_w :
    ray_cylinder Nc (-3, 1/4, 0) (1, 0, 0) (candle_center cBand) cBand.radius
        cBand.height = none ∧
    ((0 : ℚ) + 1 / 2 ≤ (add (-3, 1, 0) (mul (1, 0, 0) 2)).2.1 ∧
      (add (-3, 1, 0) (mul (1, 0, 0) 2)).2.1 ≤ 0 + 3 * 1 / 2) := by
  constructor
  · exact (candle_body_band Nc (-3, 1/4, 0) (1, 0, 0) cBand
      (by with_unfolding_all decide)).2 (by with_unfolding_all decide)
  · exact (candle_body_band Nc (-3, 1, 0) (1, 0, 0) cBand
      (by with_unfolding_all decide)).1 2 (-1, 0, 0) (by with_unfolding_all decide)
/-- C5 (evaluation at the failing input): with the zero direction
`ray_plane` and `ray_cylinder` do return no hit, but `ray_sphere`
reaches the root computation with divisor `2*a = 0` — Python raises
`ZeroDivisionError` there — and `ray_aabb` from a point inside the box
returns a hit (the `1e8` sentinel inverses make the slab test succeed),
both contradicting the specified "no hit, never an error" behavior. -/
theorem zero_direction_behavior :
    ray_sphereE_raises Nc (0, 0, 0) (0, 0, 0) (3, 0, 0) 1 = true ∧
    ray_plane (0, 0, 0) (0, 0, 0) (0, 0, 5) (0, 0, 1) = none ∧
    ray_cylinder Nc (0, 0, 0) (0, 0, 0) (5, 0, 0) 1 1 = none ∧
    (ray_aabb (0, 0, 0) (0, 0, 0) (-1, -1, -1) (1, 1, 1)).isSome = true := by
  refine ⟨?_, ?_, ?_, ?_⟩ <;> with_unfolding_all decide

/-- A length-3 presence check unfolds to an existential. -/
theorem len3_iff (o : Option (List JEntry)) :
    len3 o = true ↔ ∃ l, o = some l ∧ l.length = 3 := by
  cases o <;> simp [len3]

/-- A configuration with all four groups, all six 3-component fields
numeric of length 3, but no `camera.fov`. -/
def cfgNoFov : SceneCfg :=
  ⟨some ⟨some [.num 0, .num 1, .num 2], some [.num 0, .num 0, .num 0], false⟩,
    some ⟨some [.num 1, .num 1, .num 1], some [.num 0, .num 0, .num 0]⟩,
    some ⟨some [.num 0, .num 2, .num 0], some [.num 1, .num 1, .num 1]⟩, true⟩

/-- C8 counterexample: `cfgNoFov` satisfies every rule the claim states
(groups present, each listed 3-component field has exactly three numeric
entries), yet `validate_scene` fails — the code additionally asserts
`"fov" in cam`.  (The converse direction fails too: the code never
checks that entries are numeric.) -/
theorem validate_scene_ne_claim_rules :
    claimRules cfgNoFov = true ∧ validate_scene cfgNoFov = false := by
  with_unfolding_all decide

/-- C8 amended: `validate_scene` fails iff the configuration violates the
checks the code actually performs — the four groups present, camera
`position`/`look_at` present with exactly three entries *and `fov`
present*, room `size`/`center` and light `position`/`intensity` present
with exactly three entries; the numeric type of the entries is never
inspected. -/
theorem validate_scene_iff_amended (s : SceneCfg) :
    validate_scene s = true ↔ amendedRules s := by
  obtain ⟨cam, room, light, render⟩ := s
  cases cam <;> cases room <;> cases light <;>
    simp [validate_scene, amendedRules, len3_iff] <;> tauto

/-- The candle loop processes a concatenation left to right, stopping at
the first flame short-circuit. -/
theorem scanCandles_append (N : Numerics) (ro rd : Vec3) (cs l : List Candle)
    (st : Option HitRec) :
    scanCandles N ro rd (cs ++ l) st =
      match scanCandles N ro rd cs st with
      | .inl col => .inl col
      | .inr st2 => scanCandles N ro rd l st2 := by
  induction cs generalizing st with
  | nil => rfl
  | cons c rest ih =>
    simp only [List.cons_append, scanCandles]
    cases hc : intersect_candle N ro rd c with
    | none => exact ih st
    | some v =>
      obtain ⟨t, n, part⟩ := v
      by_cases hcl : closer st t
      · simp only [hcl, if_true]
        cases part
        · exact ih _
        · rfl
      · simp only [hcl, if_false]
        exact ih st

/-- C3: candles are scanned in list order after the room baseline, the
light test and the mirror loop; as soon as one candle's nearest part is
its flame and its distance beats the nearest candidate accumulated so far
(`st2`, the state after the earlier candles), `trace` returns that
candle's flame intensity — whatever the remaining candles and the human
models are, even if one of them would intersect strictly closer. -/
theorem trace_candle_flame_short_circuit (N : Numerics) (sc : Scene) (ro rd : Vec3)
    (mb b : ℕ) (e : ℚ) (cs rest : List Candle) (c : Candle) (t : ℚ) (n : Vec3)
    (st2 : Option HitRec)
    (hguard : ¬(b ≥ mb ∨ e < 1/200))
    (hlist : sc.candles = cs ++ c :: rest)
    (hlight : lightCheck N sc ro rd (roomCand sc ro rd) = none)
    (hprev : scanCandles N ro rd cs
        (scanMirrors N ro rd sc.mirrors (roomCand sc ro rd)) = .inr st2)
    (hflame : intersect_candle N ro rd c = some (t, n, CandlePart.flame))
    (hcl : closer st2 t = true) :
    trace N sc ro rd mb b e = c.flame_intensity := by
  have hsr : scanResolve N sc ro rd = .inl c.flame_intensity := by
    simp only [scanResolve]
    rw [hlight]
    simp only [hlist, scanCandles_append, hprev]
    simp only [scanCandles, hflame, hcl, if_true]
  rw [trace_eq, if_neg hguard]
  simp only [hsr]

/-- Witness for C3: in `scCandle` a vertical ray down through the first
candle's flame (at distance `122/25`, nearer than the floor at `25`)
returns that candle's flame intensity `(8,6,4)`, ignoring the second
candle and the human model. -/
theorem trace_candle_flame_short_circuit_w :
    trace Nc scCandle (0, 5, 0) (0, -1, 0) 4 0 1 = (8, 6, 4) := by
  have h := trace_candle_flame_short_circuit Nc scCandle (0, 5, 0) (0, -1, 0) 4 0 1
    [] [⟨(5, -(33/20), 5), 3/2, 1/5, (9/10, 9/10, 19/20), (7, 5, 3)⟩]
    ⟨(0, -(33/20), 0), 3/2, 1/5, (9/10, 9/10, 19/20), (8, 6, 4)⟩ (122/25) (0, 1, 0)
    (scanMirrors Nc (0, 5, 0) (0, -1, 0) scCandle.mirrors
      (roomCand scCandle (0, 5, 0) (0, -1, 0)))
    (by with_unfolding_all decide) rfl (by with_unfolding_all decide) rfl
    (by with_unfolding_all decide) (by with_unfolding_all decide)
  exact h

/-- C1 (amended): when the nearest-hit scan resolves to a surface with
reflectivity above `0.01`, `trace` recurses from the hit point offset
`1e-4` along the normal, in the mirror-reflected direction, with
`bounce+1` and the energy multiplied by `0.92`, and scales the recursive
color by `reflectivity` times the energy value *before* the `0.92`
reduction — where that value is the local energy after the `bounce ≥ 6`
exponential fade, which equals the caller's incoming energy only for
`bounce < 7` (at `bounce = 6` the fade factor is `exp 0`). -/
theorem trace_reflection (N : Numerics) (sc : Scene) (ro rd : Vec3) (mb b : ℕ)
    (e : ℚ) (rec : HitRec)
    (hguard : ¬(b ≥ mb ∨ e < 1/200))
    (hscan : scanResolve N sc ro rd = .inr (some rec))
    (hrefl : rec.reflectivity > 1/100) :
    trace N sc ro rd mb b e =
      mul (trace N sc (add (add ro (mul rd rec.t)) (mul rec.n (1/10000)))
            (reflect rd rec.n) mb (b + 1)
            ((if b ≥ 6 then e * N.exp (-(((b : ℚ) - 6) * (1/4))) else e) * (23/25)))
        (rec.reflectivity *
          (if b ≥ 6 then e * N.exp (-(((b : ℚ) - 6) * (1/4))) else e)) := by
  rw [trace_eq, if_neg hguard]
  simp only [hscan]
  rw [if_pos hrefl]

/-- C1 counterexample: at `bounce = 7` the exponential fade rewrites the
local energy before the reflection branch, so the returned color is
*not* the recursive result (with the incoming energy times `0.92`)
scaled by `reflectivity` times the caller's incoming energy, as the
claim states for every recursion depth.  The scan does resolve to the
mirror with reflectivity `0.95 > 0.01` (first conjunct), and the
interpretation `Nc.exp` is the constant `39/50` — any interpretation
with `exp(-1/4) ≠ 1`, in particular the real exponential with
`exp(-0.25) ≈ 0.7788`, exhibits the same inequality. -/
theorem trace_reflection_counterexample :
    scanResolve Nc scMirror (0, 0, 0) (1, 0, 0) =
      .inr (some ⟨5, (-(4/5), 3/5, 0), Material.mirror, (0, 0, 0), 19/20⟩) ∧
    ((19 : ℚ)/20 > 1/100) ∧
    trace Nc scMirror (0, 0, 0) (1, 0, 0) 100 7 (1/2) ≠
      mul (trace Nc scMirror
            (add (add (0, 0, 0) (mul (1, 0, 0) 5)) (mul (-(4/5), 3/5, 0) (1/10000)))
            (reflect (1, 0, 0) (-(4/5), 3/5, 0)) 100 8 ((1/2) * (23/25)))
        ((19/20) * (1/2)) := by
  refine ⟨?_, ?_, ?_⟩ <;> with_unfolding_all decide

/-- Witness for the amended C1 at the same scene and recursion state:
the scaling energy is the post-fade value `(1/2) * Nc.exp (-1/4)`. -/
theorem trace_reflection_w :
    trace Nc scMirror (0, 0, 0) (1, 0, 0) 100 7 (1/2) =
      mul (trace Nc scMirror
            (add (add (0, 0, 0) (mul (1, 0, 0) 5)) (mul (-(4/5), 3/5, 0) (1/10000)))
            (reflect (1, 0, 0) (-(4/5), 3/5, 0)) 100 8
            ((if 7 ≥ 6 then (1/2) * Nc.exp (-((((7 : ℕ) : ℚ) - 6) * (1/4))) else (1/2)) *
              (23/25)))
        ((19/20) *
          (if 7 ≥ 6 then (1/2) * Nc.exp (-((((7 : ℕ) : ℚ) - 6) * (1/4))) else (1/2))) :=
  trace_reflection Nc scMirror (0, 0, 0) (1, 0, 0) 100 7 (1/2)
    ⟨5, (-(4/5), 3/5, 0), Material.mirror, (0, 0, 0), 19/20⟩
    (by with_unfolding_all decide) (by with_unfolding_all decide)
    (by with_unfolding_all decide)

/-- The discriminant computed inside `ray_sphere`
(`b*b - 4*a*c` on its locals). -/
def sphere_disc (ro rd center : Vec3) (radius : ℚ) : ℚ :=
  (2 * dot (sub ro center) rd) * (2 * dot (sub ro center) rd) -
    4 * dot rd rd * (dot (sub ro center) (sub ro center) - radius * radius)

/-- The near quadratic root computed inside `ray_sphere`. -/
def sphere_t0 (N : Numerics) (ro rd center : Vec3) (radius : ℚ) : ℚ :=
  (-(2 * dot (sub ro center) rd) - N.sqrt (sphere_disc ro rd center radius)) /
    (2 * dot rd rd)

/-- The far quadratic root computed inside `ray_sphere`. -/
def sphere_t1 (N : Numerics) (ro rd center : Vec3) (radius : ℚ) : ℚ :=
  (-(2 * dot (sub ro center) rd) + N.sqrt (sphere_disc ro rd center radius)) /
    (2 * dot rd rd)

/-- `ray_sphere` restated through the named discriminant and roots. -/
theorem ray_sphere_eq (N : Numerics) (ro rd center : Vec3) (radius : ℚ) :
    ray_sphere N ro rd center radius =
      if sphere_disc ro rd center radius < 0 then none
      else if sphere_t0 N ro rd center radius > 1/10000 then
        some (sphere_t0 N ro rd center radius,
          norm N (sub (add ro (mul rd (sphere_t0 N ro rd center radius))) center))
      else if sphere_t1 N ro rd center radius > 1/10000 then
        some (sphere_t1 N ro rd center radius,
          norm N (sub (add ro (mul rd (sphere_t1 N ro rd center radius))) center))
      else none := rfl

/-- C6: a ray from an origin strictly outside a sphere (distance `d` with
`d² = |o−C|²`, `d > R + 1e-4`) aimed at the center `C` hits at distance
`d − R` with unit normal `(o−C)/d = (hit−C)/R`; the square-root
hypotheses pin the abstract interpretation to the exact values
`√(4R²) = 2R` and `√(R²) = R` it must take there (`R ≥ 1e-8` keeps
`norm` off its degenerate branch).  In general (second conjunct, for a
nonzero direction) `ray_sphere` rejects a negative discriminant, prefers
the near root when it exceeds `1e-4`, else the far root when it exceeds
`1e-4`, else reports no hit. -/
theorem ray_sphere_spec (N : Numerics) (o C : Vec3) (R d : ℚ)
    (hd2 : d * d = dot (sub o C) (sub o C))
    (hR : 1/100000000 ≤ R)
    (hfar : R + 1/10000 < d)
    (hs4 : N.sqrt (4 * (R * R)) = 2 * R)
    (hsR : N.sqrt (R * R) = R) :
    (ray_sphere N o (mul (sub C o) (1/d)) C R = some (d - R, mul (sub o C) (1/d))) ∧
    (∀ ro rd center : Vec3, ∀ radius : ℚ, dot rd rd ≠ 0 →
      (sphere_disc ro rd center radius < 0 →
        ray_sphere N ro rd center radius = none) ∧
      (sphere_t0 N ro rd center radius > 1/10000 →
        ¬sphere_disc ro rd center radius < 0 →
        ray_sphere N ro rd center radius = some (sphere_t0 N ro rd center radius,
          norm N (sub (add ro (mul rd (sphere_t0 N ro rd center radius))) center))) ∧
      (¬sphere_t0 N ro rd center radius > 1/10000 →
        sphere_t1 N ro rd center radius > 1/10000 →
        ¬sphere_disc ro rd center radius < 0 →
        ray_sphere N ro rd center radius = some (sphere_t1 N ro rd center radius,
          norm N (sub (add ro (mul rd (sphere_t1 N ro rd center radius))) center))) ∧
      (¬sphere_t0 N ro rd center radius > 1/10000 →
        ¬sphere_t1 N ro rd center radius > 1/10000 →
        ray_sphere N ro rd center radius = none)) := by
  have hd0 : (0 : ℚ) < d := by linarith
  have hdne : d ≠ 0 := ne_of_gt hd0
  have hR0 : (0 : ℚ) < R := by linarith
  have hRne : R ≠ 0 := ne_of_gt hR0
  constructor
  · obtain ⟨o1, o2, o3⟩ := o
    obtain ⟨c1, c2, c3⟩ := C
    simp only [dot, sub] at hd2
    have hb : dot (sub (o1, o2, o3) (c1, c2, c3))
        (mul (sub (c1, c2, c3) (o1, o2, o3)) (1/d)) = -d := by
      simp only [dot, sub, mul]
      field_simp
      linear_combination hd2
    have ha : dot (mul (sub (c1, c2, c3) (o1, o2, o3)) (1/d))
        (mul (sub (c1, c2, c3) (o1, o2, o3)) (1/d)) = 1 := by
      simp only [dot, sub, mul]
      field_simp
      linear_combination -hd2
    have hoc : dot (sub (o1, o2, o3) (c1, c2, c3))
        (sub (o1, o2, o3) (c1, c2, c3)) = d * d := by
      simp only [dot, sub]
      linarith [hd2]
    have hdisc : sphere_disc (o1, o2, o3) (mul (sub (c1, c2, c3) (o1, o2, o3)) (1/d))
        (c1, c2, c3) R = 4 * (R * R) := by
      unfold sphere_disc
      rw [hb, ha, hoc]
      ring
    have ht0 : sphere_t0 N (o1, o2, o3) (mul (sub (c1, c2, c3) (o1, o2, o3)) (1/d))
        (c1, c2, c3) R = d - R := by
      unfold sphere_t0
      rw [hb, ha, hdisc, hs4]
      ring
    rw [ray_sphere_eq, hdisc, ht0]
    rw [if_neg (not_lt.mpr (by positivity)), if_pos (by linarith)]
    have hhit : sub (add (o1, o2, o3)
        (mul (mul (sub (c1, c2, c3) (o1, o2, o3)) (1/d)) (d - R))) (c1, c2, c3) =
        mul (sub (o1, o2, o3) (c1, c2, c3)) (R/d) := by
      simp only [sub, add, mul, Prod.mk.injEq]
      refine ⟨?_, ?_, ?_⟩ <;> field_simp <;> ring
    rw [hhit]
    have hvv : dot (mul (sub (o1, o2, o3) (c1, c2, c3)) (R/d))
        (mul (sub (o1, o2, o3) (c1, c2, c3)) (R/d)) = R * R := by
      simp only [dot, sub, mul]
      field_simp
      linear_combination (-(R * R)) * hd2
    have hnorm : norm N (mul (sub (o1, o2, o3) (c1, c2, c3)) (R/d)) =
        mul (sub (o1, o2, o3) (c1, c2, c3)) (1/d) := by
      unfold norm length
      rw [hvv, hsR, if_neg (not_lt.mpr hR)]
      simp only [mul, sub, Prod.mk.injEq]
      refine ⟨?_, ?_, ?_⟩ <;> field_simp <;> ring
    rw [hnorm]
  · intro ro rd center radius hrd
    refine ⟨?_, ?_, ?_, ?_⟩
    · intro hneg
      rw [ray_sphere_eq, if_pos hneg]
    · intro h0 hnneg
      rw [ray_sphere_eq, if_neg hnneg, if_pos h0]
    · intro h0 h1 hnneg
      rw [ray_sphere_eq, if_neg hnneg, if_neg h0, if_pos h1]
    · intro h0 h1
      rw [ray_sphere_eq]
      split_ifs with hneg
      · rfl
      · rfl

/-- Witness for C6: origin `(3,0,0)`, unit sphere at the origin, `d = 3`;
the hit is at distance `2` with normal `(1,0,0)`. -/
theorem ray_sphere_spec_w :
    ray_sphere Nc (3, 0, 0) (mul (sub (0, 0, 0) (3, 0, 0)) (1/3)) (0, 0, 0) 1 =
      some (3 - 1, mul (sub (3, 0, 0) (0, 0, 0)) (1/3)) :=
  (ray_sphere_spec Nc (3, 0, 0) (0, 0, 0) 1 3
    (by with_unfolding_all decide) (by with_unfolding_all decide)
    (by with_unfolding_all decide) (by with_unfolding_all decide)
    (by with_unfolding_all decide)).1

end RT
